import Mathlib

/-!
Verification of the map-view core of the Fraterna application
(`src/pages/MapView.tsx`): the visibility resolver, the realtime
refresh coordinator, proximity alerting, the haversine geodistance
function and the accuracy-clamped location publish.

The TypeScript source is shallowly embedded: each Lean definition
mirrors one source function.  Backend queries are modelled by passing
the query outcome explicitly (`Option` result, `none` = the query
errored or threw).  Real-valued arithmetic from the source is modelled
over `ℝ`.
-/

namespace Fraterna

/-! ## Data model (interface `BrotherLocation` and profile rows) -/

/-- The joined profile attributes carried by a location row
(`BrotherLocation.profile` in the source).  `tracking_enabled` and
`location_visibility_mode` are optional fields in the source. -/
structure BrotherProfile where
  full_name : String
  city : String
  stealth_mode : Bool
  tracking_enabled : Option Bool
  location_visibility_mode : Option String
deriving Repr, DecidableEq

/-- A candidate location record (`interface BrotherLocation`).  The
coordinates are modelled as optional because the alerting code guards
with `typeof b.lat !== "number"`. -/
structure BrotherLocation where
  id : String
  user_id : String
  lat : Option ℝ
  lng : Option ℝ
  accuracy_meters : ℤ
  updated_at : String
  profile : BrotherProfile

/-- A row of the `friendships` table, canonical schema
(`requester_id` / `addressee_id` / `status`). -/
structure FriendshipRow where
  requester_id : String
  addressee_id : String
  status : String
deriving Repr, DecidableEq

/-- A row of the `friendships` table, fallback schema
(`user_id` / `friend_id` / `status`). -/
structure FriendshipRow2 where
  user_id : String
  friend_id : String
  status : String
deriving Repr, DecidableEq

/-- A row of the `location_allowlist` table, canonical schema
(`owner_id` / `viewer_id`). -/
structure AllowlistRow where
  owner_id : String
  viewer_id : String
deriving Repr, DecidableEq

/-- A row of the `location_allowlist` table, first fallback schema
(`owner_id` / `allowed_user_id`). -/
structure AllowlistRow2 where
  owner_id : String
  allowed_user_id : String
deriving Repr, DecidableEq

/-- A row of the `location_allowlist` table, second fallback schema
(`user_id` / `allowed_user_id`). -/
structure AllowlistRow3 where
  user_id : String
  allowed_user_id : String
deriving Repr, DecidableEq

/-! ## `normalizeVisibilityMode` -/

/-- Model of `normalizeVisibilityMode`: any value other than the three
recognized literals collapses to `"friends"`. -/
def normalizeVisibilityMode (v : Option String) : String :=
  match v with
  | some s =>
      if s == "public" || s == "friends" || s == "friends_selected" then s
      else "friends"
  | none => "friends"

/-! ## `loadViewerRelations` -/

/-- The backend filter applied by the canonical friendships query:
`.or(requester_id.eq.V,addressee_id.eq.V).eq("status","accepted")`. -/
def queryFriendships (viewerId : String) (table : List FriendshipRow) :
    List FriendshipRow :=
  table.filter fun r =>
    (r.requester_id == viewerId || r.addressee_id == viewerId) &&
      r.status == "accepted"

/-- The backend filter applied by the fallback friendships query:
`.or(user_id.eq.V,friend_id.eq.V).eq("status","accepted")`. -/
def queryFriendships2 (viewerId : String) (table : List FriendshipRow2) :
    List FriendshipRow2 :=
  table.filter fun r =>
    (r.user_id == viewerId || r.friend_id == viewerId) && r.status == "accepted"

/-- The backend filter applied by the canonical allowlist query:
`.eq("viewer_id", viewerId)`. -/
def queryAllowlist (viewerId : String) (table : List AllowlistRow) :
    List AllowlistRow :=
  table.filter fun r => r.viewer_id == viewerId

/-- The `friends` set computed by `loadViewerRelations`: the loop over
the canonical query result, falling back to the alternate schema when
the canonical query errored (`q1 = none`), and to the empty set when
both fail. -/
def friendsFrom (viewerId : String) (q1 : Option (List FriendshipRow))
    (q2 : Option (List FriendshipRow2)) : List String :=
  match q1 with
  | some rows =>
      rows.flatMap fun r =>
        (if r.requester_id == viewerId then [r.addressee_id] else []) ++
        (if r.addressee_id == viewerId then [r.requester_id] else [])
  | none =>
      match q2 with
      | some rows =>
          rows.flatMap fun r =>
            (if r.user_id == viewerId then [r.friend_id] else []) ++
            (if r.friend_id == viewerId then [r.user_id] else [])
      | none => []

/-- The `allowlisted` set computed by `loadViewerRelations`: owners who
granted the viewer explicit visibility, with the two fallback schemas,
empty when every lookup fails. -/
def allowlistedFrom (viewerId : String) (q1 : Option (List AllowlistRow))
    (q2 : Option (List AllowlistRow2)) (q3 : Option (List AllowlistRow3)) :
    List String :=
  match q1 with
  | some rows => rows.map fun r => r.owner_id
  | none =>
      match q2 with
      | some rows => rows.map fun r => r.owner_id
      | none =>
          match q3 with
          | some rows => rows.map fun r => r.user_id
          | none =>
            let _ := viewerId
            []

/-! ## The privacy filter inside `fetchBrothers` -/

/-- The per-candidate predicate of the `rawList.filter` in
`fetchBrothers`: stealth and disabled tracking reject immediately,
then the normalized visibility mode selects the rule. -/
def visibleTo (friends allowlisted : List String) (b : BrotherLocation) : Bool :=
  if b.profile.stealth_mode then false
  else if b.profile.tracking_enabled == some false then false
  else if normalizeVisibilityMode b.profile.location_visibility_mode == "public" then
    true
  else if normalizeVisibilityMode b.profile.location_visibility_mode == "friends" then
    friends.contains b.user_id
  else allowlisted.contains b.user_id

/-- The same candidate with its visibility mode replaced (used to
state that an unrecognized mode behaves exactly like `"friends"`). -/
def setMode (b : BrotherLocation) (m : Option String) : BrotherLocation :=
  { b with profile := { b.profile with location_visibility_mode := m } }

/-- A concrete friends-mode candidate used by witnesses: owner "o",
not stealth, tracking on. -/
def sampleBrother : BrotherLocation :=
  ⟨"1", "o", none, none, 150, "now",
    ⟨"O", "Caracas", false, some true, some "friends"⟩⟩

/-- A concrete friends_selected-mode candidate used by witnesses. -/
def sampleBrotherSel : BrotherLocation :=
  ⟨"2", "p", none, none, 150, "now",
    ⟨"P", "Valencia", false, some true, some "friends_selected"⟩⟩

/-- A concrete candidate with an unrecognized visibility mode, used by
witnesses. -/
def sampleBrotherOdd : BrotherLocation :=
  ⟨"3", "q", none, none, 150, "now",
    ⟨"Q", "Maracaibo", false, some true, some "everyone"⟩⟩

/-- A concrete candidate with known coordinates (at the origin), used
by the proximity-alert witness. -/
def sampleBrotherNear : BrotherLocation :=
  ⟨"4", "w", some 0, some 0, 150, "now",
    ⟨"W", "Caracas", false, some true, some "public"⟩⟩

/-- The filtered candidate list computed by `fetchBrothers`. -/
def visibleFilter (friends allowlisted : List String)
    (rawList : List BrotherLocation) : List BrotherLocation :=
  rawList.filter (visibleTo friends allowlisted)

/-- End-to-end happy path: both relation queries succeed against the
given tables, then the privacy filter is applied. -/
def resolveVisible (viewerId : String) (ftable : List FriendshipRow)
    (atable : List AllowlistRow) (rawList : List BrotherLocation) :
    List BrotherLocation :=
  visibleFilter
    (friendsFrom viewerId (some (queryFriendships viewerId ftable)) none)
    (allowlistedFrom viewerId (some (queryAllowlist viewerId atable)) none none)
    rawList

/-- An accepted friendship edge between `x` and `viewerId`, in either
direction, present in the table. -/
def AcceptedEdge (viewerId x : String) (ftable : List FriendshipRow) : Prop :=
  ∃ r ∈ ftable, r.status = "accepted" ∧
    ((r.requester_id = viewerId ∧ r.addressee_id = x) ∨
     (r.addressee_id = viewerId ∧ r.requester_id = x))

/-- An allowlist entry granting viewer `viewerId` visibility of owner
`x`. -/
def AllowEntry (viewerId x : String) (atable : List AllowlistRow) : Prop :=
  ∃ r ∈ atable, r.owner_id = x ∧ r.viewer_id = viewerId

/-! ## Realtime refresh coordinator

`scheduleFetchBrothers` (a 600 ms debounce timer) and the
`isFetchingRef` / `pendingFetchRef` single-flight discipline of
`fetchBrothers`, modelled as a transition system over an explicit
state.  `fetchStarts` records the times at which a fetch body actually
began (passed the `isFetchingRef` guard); `inFlight` counts fetch
bodies started but not yet completed. -/

/-- The debounce window of `scheduleFetchBrothers` (600 ms). -/
def DEBOUNCE_MS : Nat := 600

/-- Coordinator state: the armed debounce timer (absolute due time),
the number of in-flight fetch bodies, the `pendingFetchRef` flag, and
the log of fetch start times. -/
structure CoordState where
  timerDue : Option Nat
  inFlight : Nat
  pendingFetch : Bool
  fetchStarts : List Nat
deriving Repr, DecidableEq

/-- Initial state: no timer armed, nothing in flight. -/
def initState : CoordState := ⟨none, 0, false, []⟩

/-- The entry of `fetchBrothers` at time `t`: if a fetch is already in
flight, only the pending flag is set; otherwise a fetch body starts. -/
def tryStartFetch (s : CoordState) (t : Nat) : CoordState :=
  if s.inFlight > 0 then { s with pendingFetch := true }
  else { s with inFlight := s.inFlight + 1, fetchStarts := s.fetchStarts ++ [t] }

/-- Model of `scheduleFetchBrothers` at time `t`: clear any armed timer and arm
a new one due at `t + 600`. -/
def scheduleFetch (s : CoordState) (t : Nat) : CoordState :=
  { s with timerDue := some (t + DEBOUNCE_MS) }

/-- The armed debounce timer fires: disarm it and enter
`fetchBrothers` at the due time. -/
def fireTimer (s : CoordState) : CoordState :=
  match s.timerDue with
  | some d => tryStartFetch { s with timerDue := none } d
  | none => s

/-- A realtime change notification at time `t`: in the event loop a
timer already due would have fired first; then `scheduleFetchBrothers`
resets the debounce window. -/
def notifyChange (s : CoordState) (t : Nat) : CoordState :=
  let s' :=
    match s.timerDue with
    | some d => if d ≤ t then fireTimer s else s
    | none => s
  scheduleFetch s' t

/-- The `finally` block of `fetchBrothers` at completion time `t`:
clear `isFetchingRef`, and when the pending flag is set, clear it and
call `scheduleFetchBrothers` (one debounced re-fetch). -/
def completeFetch (s : CoordState) (t : Nat) : CoordState :=
  if s.inFlight = 0 then s
  else
    let s' := { s with inFlight := s.inFlight - 1 }
    if s'.pendingFetch then scheduleFetch { s' with pendingFetch := false } t
    else s'

/-- The coordinator's event alphabet: a realtime notification, the
debounce timer firing, a direct `fetchBrothers()` call (the mount
effect), and a fetch body completing. -/
inductive MapEvent where
  | notify (t : Nat)
  | timerFire
  | directFetch (t : Nat)
  | complete (t : Nat)
deriving Repr, DecidableEq

/-- One step of the coordinator. -/
def coordStep (s : CoordState) : MapEvent → CoordState
  | .notify t => notifyChange s t
  | .timerFire => fireTimer s
  | .directFetch t => tryStartFetch s t
  | .complete t => completeFetch s t

/-- Run the coordinator over a list of events. -/
def coordRun (s : CoordState) (evs : List MapEvent) : CoordState :=
  evs.foldl coordStep s

/-! ## Geodistance (`haversineDistance`) -/

/-- Degrees to radians, the `toRad` helper inside `haversineDistance`. -/
noncomputable def toRad (value : ℝ) : ℝ := value * Real.pi / 180

/-- Two-argument arctangent with the semantics of `Math.atan2(y, x)`
on real inputs. -/
noncomputable def atan2 (y x : ℝ) : ℝ :=
  if 0 < x then Real.arctan (y / x)
  else if x < 0 then
    (if 0 ≤ y then Real.arctan (y / x) + Real.pi
     else Real.arctan (y / x) - Real.pi)
  else
    (if 0 < y then Real.pi / 2
     else if y < 0 then -(Real.pi / 2)
     else 0)

/-- Model of `haversineDistance`: great-circle distance (km) by the haversine
formula with Earth radius 6371 km. -/
noncomputable def haversineDistance (lat1 lon1 lat2 lon2 : ℝ) : ℝ :=
  let R : ℝ := 6371
  let lat1Rad := toRad lat1
  let lon1Rad := toRad lon1
  let lat2Rad := toRad lat2
  let lon2Rad := toRad lon2
  let deltaLat := lat2Rad - lat1Rad
  let deltaLon := lon2Rad - lon1Rad
  let a :=
    Real.sin (deltaLat / 2) * Real.sin (deltaLat / 2) +
      Real.cos lat1Rad * Real.cos lat2Rad *
        Real.sin (deltaLon / 2) * Real.sin (deltaLon / 2)
  let c := 2 * atan2 (Real.sqrt a) (Real.sqrt (1 - a))
  R * c

/-! ## Proximity alerting (`checkProximityAlerts`) -/

/-- The viewer's own profile fields read by `checkProximityAlerts`
and `updateMyLocation`: both are optional in the source. -/
structure ViewerProfile where
  proximity_alerts_enabled : Option Bool
  proximity_radius_km : Option ℝ

/-- The alert cooldown, `COOLDOWN_MS = 2 * 60 * 1000`. -/
def COOLDOWN_MS : ℤ := 2 * 60 * 1000

/-- Lookup with default 0, modelling `lastNotifiedRef.current[uid] ?? 0`. -/
def lookupD (ln : List (String × ℤ)) (uid : String) : ℤ :=
  (ln.lookup uid).getD 0

/-- The loop body of `checkProximityAlerts` over the candidate list,
threading the `lastNotifiedRef` map and collecting the user ids for
which a toast was emitted.  Candidates without numeric coordinates or
in stealth mode are skipped; within radius and past the cooldown, the
alert is emitted and `now` recorded. -/
noncomputable def alertLoop (myLat myLng radiusKm : ℝ) (now : ℤ) :
    List (String × ℤ) → List BrotherLocation → List String × List (String × ℤ)
  | ln, [] => ([], ln)
  | ln, b :: rest =>
    match b.lat, b.lng with
    | some blat, some blng =>
      if b.profile.stealth_mode then alertLoop myLat myLng radiusKm now ln rest
      else
        let dist := haversineDistance myLat myLng blat blng
        if dist ≤ radiusKm then
          if now - lookupD ln b.user_id ≥ COOLDOWN_MS then
            let out := alertLoop myLat myLng radiusKm now
              ((b.user_id, now) :: ln) rest
            (b.user_id :: out.1, out.2)
          else alertLoop myLat myLng radiusKm now ln rest
        else alertLoop myLat myLng radiusKm now ln rest
    | _, _ => alertLoop myLat myLng radiusKm now ln rest

/-- Model of `checkProximityAlerts`: the guards (alerts disabled, radius zero,
unknown own position) and then the loop.  Returns the emitted alerts
and the updated `lastNotifiedRef` map. -/
noncomputable def checkProximityAlerts (profile : ViewerProfile)
    (myLat myLng : Option ℝ) (now : ℤ) (ln : List (String × ℤ))
    (list : List BrotherLocation) : List String × List (String × ℤ) :=
  if profile.proximity_alerts_enabled = some false then ([], ln)
  else
    let radiusKm := profile.proximity_radius_km.getD 5
    if radiusKm = 0 then ([], ln)
    else
      match myLat, myLng with
      | some la, some lo => alertLoop la lo radiusKm now ln list
      | _, _ => ([], ln)

/-! ## `fetchBrothers` state update -/

/-- The state-changing tail of `fetchBrothers` after the relation
lookups: `locQuery` is the outcome of the locations query (`none` =
error response or exception before the filtered result).  On success
the privacy filter runs, `setBrothers` installs the filtered list and
`checkProximityAlerts` updates the `lastNotifiedRef` map; on failure
both are left untouched. -/
noncomputable def fetchApply (friends allowlisted : List String)
    (profile : ViewerProfile) (myLat myLng : Option ℝ) (now : ℤ)
    (locQuery : Option (List BrotherLocation))
    (brothers : List BrotherLocation) (ln : List (String × ℤ)) :
    List BrotherLocation × List (String × ℤ) :=
  match locQuery with
  | none => (brothers, ln)
  | some data =>
      let filtered := visibleFilter friends allowlisted data
      let out := checkProximityAlerts profile myLat myLng now ln filtered
      (filtered, out.2)

/-! ## Location publish (`updateMyLocation`) -/

/-- Rounding of a real input as `Math.round`: round half towards positive
infinity. -/
noncomputable def jsRound (x : ℝ) : ℤ := ⌊x + 1 / 2⌋

/-- Clamping as in `const clampedAccuracy = Math.max(100, Math.min(300,
Math.round(accuracy)))`. -/
noncomputable def clampAccuracy (accuracy : ℝ) : ℤ :=
  max 100 (min 300 (jsRound accuracy))

/-- The payload of the `locations` upsert written by
`updateMyLocation`. -/
structure LocationUpsert where
  user_id : String
  lat : ℝ
  lng : ℝ
  accuracy_meters : ℤ
  updated_at : String

/-- The row `updateMyLocation` writes: coordinates as read from
geolocation, accuracy clamped. -/
noncomputable def buildLocationUpsert (userId : String)
    (latitude longitude accuracy : ℝ) (ts : String) : LocationUpsert :=
  ⟨userId, latitude, longitude, clampAccuracy accuracy, ts⟩

/-! ## Helper lemmas -/

theorem arctan_nonneg_of_nonneg {x : ℝ} (h : 0 ≤ x) : 0 ≤ Real.arctan x := by
  have := Real.arctan_strictMono.monotone h
  rwa [Real.arctan_zero] at this

theorem atan2_nonneg {y : ℝ} (x : ℝ) (hy : 0 ≤ y) : 0 ≤ atan2 y x := by
  unfold atan2
  have hpi := Real.pi_pos
  have harc := Real.neg_pi_div_two_lt_arctan (y / x)
  split_ifs with h1 h2 h3 h4
  · exact arctan_nonneg_of_nonneg (div_nonneg hy h1.le)
  · linarith
  · linarith
  · linarith
  · linarith

/-- Value of `Math.atan2(0, x)` for positive `x`: zero. -/
theorem atan2_zero_of_pos {x : ℝ} (hx : 0 < x) : atan2 0 x = 0 := by
  unfold atan2
  rw [if_pos hx, zero_div, Real.arctan_zero]

/-- Symmetry of the haversine distance in the two points. -/
theorem haversine_symm (lat1 lon1 lat2 lon2 : ℝ) :
    haversineDistance lat1 lon1 lat2 lon2 = haversineDistance lat2 lon2 lat1 lon1 := by
  simp only [haversineDistance]
  have e1 : Real.sin ((toRad lat2 - toRad lat1) / 2) =
      -Real.sin ((toRad lat1 - toRad lat2) / 2) := by
    rw [show toRad lat2 - toRad lat1 = -(toRad lat1 - toRad lat2) from by ring,
      neg_div, Real.sin_neg]
  have e2 : Real.sin ((toRad lon2 - toRad lon1) / 2) =
      -Real.sin ((toRad lon1 - toRad lon2) / 2) := by
    rw [show toRad lon2 - toRad lon1 = -(toRad lon1 - toRad lon2) from by ring,
      neg_div, Real.sin_neg]
  rw [e1, e2]
  ring_nf

/-- Identical points are at haversine distance zero. -/
theorem haversine_self (lat lon : ℝ) : haversineDistance lat lon lat lon = 0 := by
  simp only [haversineDistance, sub_self, zero_div, Real.sin_zero, mul_zero,
    zero_mul, add_zero, zero_add, Real.sqrt_zero, sub_zero, Real.sqrt_one]
  rw [atan2_zero_of_pos one_pos]
  ring

/-- The haversine distance is never negative. -/
theorem haversine_nonneg (lat1 lon1 lat2 lon2 : ℝ) :
    0 ≤ haversineDistance lat1 lon1 lat2 lon2 := by
  simp only [haversineDistance]
  have h := atan2_nonneg (y := Real.sqrt (Real.sin ((toRad lat2 - toRad lat1) / 2) *
      Real.sin ((toRad lat2 - toRad lat1) / 2) +
      Real.cos (toRad lat1) * Real.cos (toRad lat2) *
        Real.sin ((toRad lon2 - toRad lon1) / 2) *
        Real.sin ((toRad lon2 - toRad lon1) / 2)))
    (Real.sqrt (1 - (Real.sin ((toRad lat2 - toRad lat1) / 2) *
      Real.sin ((toRad lat2 - toRad lat1) / 2) +
      Real.cos (toRad lat1) * Real.cos (toRad lat2) *
        Real.sin ((toRad lon2 - toRad lon1) / 2) *
        Real.sin ((toRad lon2 - toRad lon1) / 2))))
    (Real.sqrt_nonneg _)
  linarith

/-- C7: the geodistance function computes the haversine great-circle
distance with Earth radius 6371 km; it is symmetric, zero on identical
points, and never negative. -/
theorem haversine_symm_self_nonneg :
    (∀ lat1 lon1 lat2 lon2 : ℝ,
        haversineDistance lat1 lon1 lat2 lon2 = haversineDistance lat2 lon2 lat1 lon1) ∧
    (∀ lat lon : ℝ, haversineDistance lat lon lat lon = 0) ∧
    (∀ lat1 lon1 lat2 lon2 : ℝ, 0 ≤ haversineDistance lat1 lon1 lat2 lon2) :=
  ⟨haversine_symm, haversine_self, haversine_nonneg⟩

/-! ## C8: accuracy clamping -/

theorem jsRound_le_of_lt {x : ℝ} {n : ℤ} (h : x < n) : jsRound x ≤ n := by
  unfold jsRound
  have : x + 1 / 2 < (n : ℝ) + 1 := by linarith
  have hlt : ⌊x + 1 / 2⌋ < n + 1 := by
    apply Int.floor_lt.mpr
    push_cast
    linarith
  omega

theorem le_jsRound_of_le {x : ℝ} {n : ℤ} (h : (n : ℝ) ≤ x) : n ≤ jsRound x := by
  unfold jsRound
  apply Int.le_floor.mpr
  linarith

/-- C8: the `accuracy_meters` written by `updateMyLocation` is the raw
accuracy rounded and clamped into [100, 300]: below 100 becomes 100,
above 300 becomes 300, in between the rounded value is kept. -/
theorem publish_accuracy_clamped (userId : String)
    (latitude longitude accuracy : ℝ) (ts : String) :
    (buildLocationUpsert userId latitude longitude accuracy ts).accuracy_meters =
        clampAccuracy accuracy ∧
    (100 ≤ clampAccuracy accuracy ∧ clampAccuracy accuracy ≤ 300) ∧
    (accuracy < 100 → clampAccuracy accuracy = 100) ∧
    (300 < accuracy → clampAccuracy accuracy = 300) ∧
    (100 ≤ accuracy → accuracy ≤ 300 → clampAccuracy accuracy = jsRound accuracy) := by
  refine ⟨rfl, ⟨le_max_left _ _, ?_⟩, ?_, ?_, ?_⟩
  · exact max_le (by norm_num) (min_le_left _ _)
  · intro h
    have hj : jsRound accuracy ≤ 100 := jsRound_le_of_lt (by exact_mod_cast h)
    unfold clampAccuracy
    rw [min_eq_right (hj.trans (by norm_num)), max_eq_left hj]
  · intro h
    have hj : 300 ≤ jsRound accuracy := le_jsRound_of_le (by exact_mod_cast h.le)
    unfold clampAccuracy
    rw [min_eq_left hj, max_eq_right (by norm_num)]
  · intro h1 h2
    have hlo : 100 ≤ jsRound accuracy := le_jsRound_of_le (by exact_mod_cast h1)
    have hhi : jsRound accuracy ≤ 300 := by
      unfold jsRound
      have : ⌊accuracy + 1 / 2⌋ < 301 := by
        apply Int.floor_lt.mpr
        push_cast
        linarith
      omega
    unfold clampAccuracy
    rw [min_eq_right hhi, max_eq_right hlo]

/-- Witness for `publish_accuracy_clamped` at concrete inputs: a raw
accuracy of 42 is clamped up to 100, one of 1000 down to 300. -/
theorem publish_accuracy_clamped_witness :
    ((42 : ℝ) < 100 ∧ clampAccuracy 42 = 100) ∧
    ((300 : ℝ) < 1000 ∧ clampAccuracy 1000 = 300) :=
  ⟨⟨by norm_num,
      (publish_accuracy_clamped "u" 0 0 42 "t").2.2.1 (by norm_num)⟩,
    ⟨by norm_num,
      (publish_accuracy_clamped "u" 0 0 1000 "t").2.2.2.1 (by norm_num)⟩⟩

/-! ## C3 / C4: refresh coordinator -/

theorem coordRun_nil (s : CoordState) : coordRun s [] = s := rfl

theorem coordRun_cons (s : CoordState) (ev : MapEvent) (evs : List MapEvent) :
    coordRun s (ev :: evs) = coordRun (coordStep s ev) evs := rfl

theorem tryStartFetch_inFlight (s : CoordState) (t : Nat) :
    (tryStartFetch s t).inFlight =
      if s.inFlight > 0 then s.inFlight else s.inFlight + 1 := by
  unfold tryStartFetch
  split_ifs <;> rfl

theorem fireTimer_inFlight_le_one {s : CoordState} (h : s.inFlight ≤ 1) :
    (fireTimer s).inFlight ≤ 1 := by
  unfold fireTimer
  cases hd : s.timerDue with
  | none => exact h
  | some d =>
      dsimp only
      rw [tryStartFetch_inFlight]
      dsimp only
      split_ifs <;> omega

theorem coordStep_inFlight_le_one {s : CoordState} (h : s.inFlight ≤ 1)
    (ev : MapEvent) : (coordStep s ev).inFlight ≤ 1 := by
  cases ev with
  | notify t =>
      simp only [coordStep]
      unfold notifyChange scheduleFetch
      dsimp only
      cases hd : s.timerDue with
      | none => exact h
      | some d =>
          dsimp only
          split_ifs with hle
          · exact fireTimer_inFlight_le_one h
          · exact h
  | timerFire =>
      exact fireTimer_inFlight_le_one h
  | directFetch t =>
      simp only [coordStep]
      rw [tryStartFetch_inFlight]
      split_ifs <;> omega
  | complete t =>
      simp only [coordStep]
      unfold completeFetch scheduleFetch
      dsimp only
      split_ifs <;> first | omega | (dsimp only; omega)

theorem coordRun_inFlight_le_one (evs : List MapEvent) :
    ∀ {s : CoordState}, s.inFlight ≤ 1 → (coordRun s evs).inFlight ≤ 1 := by
  induction evs with
  | nil => intro s h; exact h
  | cons ev rest ih =>
      intro s h
      rw [coordRun_cons]
      exact ih (coordStep_inFlight_le_one h ev)

/-- Along a burst of notifications each of which arrives strictly
inside the previous debounce window, the debounce timer is only ever
reset: no fetch starts, and the timer stays armed for 600 ms past the
newest notification. -/
theorem burst_resets_timer (ts : List Nat) :
    ∀ t0 : Nat, List.Chain' (fun a b => b < a + DEBOUNCE_MS) (t0 :: ts) →
      coordRun ⟨some (t0 + DEBOUNCE_MS), 0, false, []⟩ (ts.map MapEvent.notify) =
        ⟨some (ts.getLastD t0 + DEBOUNCE_MS), 0, false, []⟩ := by
  induction ts with
  | nil => intro t0 _; rfl
  | cons t1 rest ih =>
      intro t0 hchain
      have h01 : t1 < t0 + DEBOUNCE_MS := (List.chain'_cons.mp hchain).1
      have hrest : List.Chain' (fun a b => b < a + DEBOUNCE_MS) (t1 :: rest) :=
        (List.chain'_cons.mp hchain).2
      have hstep :
          coordStep ⟨some (t0 + DEBOUNCE_MS), 0, false, []⟩ (MapEvent.notify t1) =
            ⟨some (t1 + DEBOUNCE_MS), 0, false, []⟩ := by
        simp only [coordStep]
        unfold notifyChange scheduleFetch
        dsimp only
        rw [if_neg (by omega)]
      rw [List.map_cons, coordRun_cons, hstep, ih t1 hrest, List.getLastD_cons]

/-- C3: the coordinator never has more than one fetch in flight, and a
burst of change notifications arriving while idle — each within the
previous one's debounce window — yields exactly one fetch for the
whole burst, started strictly after the last notification. -/
theorem coordinator_single_flight_and_burst :
    (∀ evs : List MapEvent, (coordRun initState evs).inFlight ≤ 1) ∧
    (∀ (t0 : Nat) (ts : List Nat),
        List.Chain' (fun a b => b < a + DEBOUNCE_MS) (t0 :: ts) →
        (fireTimer (coordRun initState ((t0 :: ts).map MapEvent.notify))).fetchStarts =
            [ts.getLastD t0 + DEBOUNCE_MS] ∧
          ∀ x ∈ (fireTimer (coordRun initState
              ((t0 :: ts).map MapEvent.notify))).fetchStarts,
            ts.getLastD t0 < x) := by
  constructor
  · intro evs
    exact coordRun_inFlight_le_one evs (by decide)
  · intro t0 ts hchain
    have hrun :
        coordRun initState ((t0 :: ts).map MapEvent.notify) =
          ⟨some (ts.getLastD t0 + DEBOUNCE_MS), 0, false, []⟩ := by
      rw [List.map_cons, coordRun_cons,
        show coordStep initState (MapEvent.notify t0) =
          (⟨some (t0 + DEBOUNCE_MS), 0, false, []⟩ : CoordState) from rfl]
      exact burst_resets_timer ts t0 hchain
    have hfire :
        fireTimer (⟨some (ts.getLastD t0 + DEBOUNCE_MS), 0, false, []⟩ : CoordState) =
          ⟨none, 1, false, [ts.getLastD t0 + DEBOUNCE_MS]⟩ := rfl
    rw [hrun, hfire]
    refine ⟨rfl, ?_⟩
    intro x hx
    rw [List.mem_singleton] at hx
    subst hx
    have : 0 < DEBOUNCE_MS := by norm_num [DEBOUNCE_MS]
    omega

/-- Witness for `coordinator_single_flight_and_burst`: five
notifications 10 ms apart (the spec's burst) produce exactly one fetch,
issued 600 ms after the last one. -/
theorem coordinator_single_flight_and_burst_witness :
    (coordRun initState [MapEvent.directFetch 0, MapEvent.notify 3,
        MapEvent.timerFire, MapEvent.complete 9]).inFlight ≤ 1 ∧
    (fireTimer (coordRun initState
        ([0, 10, 20, 30, 40].map MapEvent.notify))).fetchStarts = [40 + DEBOUNCE_MS] :=
  ⟨coordinator_single_flight_and_burst.1 _,
    (coordinator_single_flight_and_burst.2 0 [10, 20, 30, 40]
      (by norm_num [List.chain'_cons, List.chain'_singleton, DEBOUNCE_MS])).1⟩

/-- C4 counterexample: a fetch starts at 0, a notification at 10 arms
the debounce timer, the timer fires during the fetch and sets the
pending flag; when the fetch completes at 700 with the flag set, the
coordinator does NOT immediately start another fetch — it is left with
nothing in flight and `fetchStarts` unchanged, only a debounce timer
armed for 1300. -/
theorem complete_pending_not_immediate_counterexample :
    coordRun initState [MapEvent.directFetch 0, MapEvent.notify 10,
        MapEvent.timerFire] = ⟨none, 1, true, [0]⟩ ∧
    coordRun initState [MapEvent.directFetch 0, MapEvent.notify 10,
        MapEvent.timerFire, MapEvent.complete 700] =
      ⟨some 1300, 0, false, [0]⟩ :=
  ⟨rfl, rfl⟩

/-- C4 (amended): while a fetch is in flight no event starts a new
fetch; completing with the pending flag set clears the flag and arms
one debounced re-fetch, and when that timer fires exactly one
additional fetch starts (regardless of how many notifications were
missed). -/
theorem complete_pending_schedules_one_refetch (s : CoordState) (t t' : Nat)
    (hin : s.inFlight = 1) (hp : s.pendingFetch = true) :
    (tryStartFetch s t').fetchStarts = s.fetchStarts ∧
    (fireTimer s).fetchStarts = s.fetchStarts ∧
    (notifyChange s t').fetchStarts = s.fetchStarts ∧
    completeFetch s t = ⟨some (t + DEBOUNCE_MS), 0, false, s.fetchStarts⟩ ∧
    (fireTimer (completeFetch s t)).fetchStarts = s.fetchStarts ++ [t + DEBOUNCE_MS] ∧
    (fireTimer (completeFetch s t)).inFlight = 1 := by
  obtain ⟨td, fi, pf, fs⟩ := s
  simp only at hin hp
  subst hin
  subst hp
  refine ⟨rfl, ?_, ?_, rfl, rfl, rfl⟩
  · unfold fireTimer
    cases td with
    | none => rfl
    | some d => rfl
  · unfold notifyChange scheduleFetch
    cases td with
    | none => rfl
    | some d =>
        dsimp only
        split_ifs with hle
        · rfl
        · rfl

/-- Witness for `complete_pending_schedules_one_refetch` at a concrete
in-flight-with-pending state. -/
theorem complete_pending_schedules_one_refetch_witness :
    (tryStartFetch ⟨none, 1, true, [0]⟩ 50).fetchStarts = [0] ∧
    (fireTimer ⟨none, 1, true, [0]⟩).fetchStarts = [0] ∧
    (notifyChange ⟨none, 1, true, [0]⟩ 50).fetchStarts = [0] ∧
    completeFetch ⟨none, 1, true, [0]⟩ 700 =
      ⟨some (700 + DEBOUNCE_MS), 0, false, [0]⟩ ∧
    (fireTimer (completeFetch ⟨none, 1, true, [0]⟩ 700)).fetchStarts =
      [0] ++ [700 + DEBOUNCE_MS] ∧
    (fireTimer (completeFetch ⟨none, 1, true, [0]⟩ 700)).inFlight = 1 :=
  complete_pending_schedules_one_refetch ⟨none, 1, true, [0]⟩ 700 50 rfl rfl

/-! ## C1 / C2 / C9: visibility resolver -/

/-- Membership in the `friends` set built from a successful canonical
friendships query characterizes accepted edges in either direction. -/
theorem mem_friendsFrom_iff (viewerId x : String) (ftable : List FriendshipRow) :
    x ∈ friendsFrom viewerId (some (queryFriendships viewerId ftable)) none ↔
      AcceptedEdge viewerId x ftable := by
  unfold friendsFrom queryFriendships AcceptedEdge
  rw [List.mem_flatMap]
  constructor
  · rintro ⟨r, hr, hxr⟩
    rw [List.mem_filter] at hr
    obtain ⟨hrt, hcond⟩ := hr
    rw [List.mem_append] at hxr
    have hstat : r.status = "accepted" := by
      simp only [Bool.and_eq_true, beq_iff_eq] at hcond
      exact hcond.2
    refine ⟨r, hrt, hstat, ?_⟩
    rcases hxr with hx1 | hx2
    · by_cases h1 : r.requester_id = viewerId
      · left
        simp only [h1, beq_self_eq_true, if_pos, List.mem_singleton] at hx1
        exact ⟨h1, hx1.symm⟩
      · exfalso
        rw [if_neg (by simpa using h1)] at hx1
        exact (List.not_mem_nil x) hx1
    · by_cases h2 : r.addressee_id = viewerId
      · right
        simp only [h2, beq_self_eq_true, if_pos, List.mem_singleton] at hx2
        exact ⟨h2, hx2.symm⟩
      · exfalso
        rw [if_neg (by simpa using h2)] at hx2
        exact (List.not_mem_nil x) hx2
  · rintro ⟨r, hrt, hstat, hdir⟩
    refine ⟨r, ?_, ?_⟩
    · rw [List.mem_filter]
      refine ⟨hrt, ?_⟩
      simp only [Bool.and_eq_true, Bool.or_eq_true, beq_iff_eq]
      rcases hdir with ⟨h1, _⟩ | ⟨h1, _⟩
      · exact ⟨Or.inl h1, hstat⟩
      · exact ⟨Or.inr h1, hstat⟩
    · rw [List.mem_append]
      rcases hdir with ⟨h1, h2⟩ | ⟨h1, h2⟩
      · left
        rw [if_pos (by simpa using h1), List.mem_singleton]
        exact h2.symm
      · right
        rw [if_pos (by simpa using h1), List.mem_singleton]
        exact h2.symm

/-- Membership in the `allowlisted` set built from a successful
canonical allowlist query characterizes allowlist entries. -/
theorem mem_allowlistedFrom_iff (viewerId x : String)
    (atable : List AllowlistRow) :
    x ∈ allowlistedFrom viewerId (some (queryAllowlist viewerId atable))
        none none ↔ AllowEntry viewerId x atable := by
  unfold allowlistedFrom queryAllowlist AllowEntry
  rw [List.mem_map]
  constructor
  · rintro ⟨r, hr, hx⟩
    rw [List.mem_filter] at hr
    exact ⟨r, hr.1, hx, by simpa using hr.2⟩
  · rintro ⟨r, hrt, hx, hv⟩
    exact ⟨r, List.mem_filter.mpr ⟨hrt, by simpa using hv⟩, hx⟩

/-- C1: for a candidate whose profile carries a recognized visibility
mode and a definite tracking flag, the resolver shows the record to
viewer V iff the owner is not in stealth, has tracking enabled, and
the mode rule holds (public; friends with an accepted edge in either
direction; friends_selected with an allowlist entry (owner, viewer)). -/
theorem visibleSet_mem_iff (viewerId : String) (ftable : List FriendshipRow)
    (atable : List AllowlistRow) (rawList : List BrotherLocation)
    (b : BrotherLocation) (tv : Bool)
    (hmode : b.profile.location_visibility_mode = some "public" ∨
      b.profile.location_visibility_mode = some "friends" ∨
      b.profile.location_visibility_mode = some "friends_selected")
    (htrack : b.profile.tracking_enabled = some tv) :
    b ∈ resolveVisible viewerId ftable atable rawList ↔
      b ∈ rawList ∧ b.profile.stealth_mode = false ∧ tv = true ∧
        (b.profile.location_visibility_mode = some "public" ∨
          (b.profile.location_visibility_mode = some "friends" ∧
            AcceptedEdge viewerId b.user_id ftable) ∨
          (b.profile.location_visibility_mode = some "friends_selected" ∧
            AllowEntry viewerId b.user_id atable)) := by
  unfold resolveVisible visibleFilter
  rw [List.mem_filter]
  refine and_congr_right fun _ => ?_
  unfold visibleTo
  rcases hmode with hm | hm | hm <;> rw [hm, htrack] <;>
    cases hst : b.profile.stealth_mode <;> cases tv <;>
      simp [normalizeVisibilityMode, mem_friendsFrom_iff, mem_allowlistedFrom_iff]

/-- Witness for `visibleSet_mem_iff`: a friends-mode owner "o" with an
accepted edge to viewer "v". -/
theorem visibleSet_mem_iff_witness :
    sampleBrother ∈ resolveVisible "v" [⟨"o", "v", "accepted"⟩] []
        [sampleBrother] ↔
      sampleBrother ∈ [sampleBrother] ∧
        sampleBrother.profile.stealth_mode = false ∧ true = true ∧
        (sampleBrother.profile.location_visibility_mode = some "public" ∨
          (sampleBrother.profile.location_visibility_mode = some "friends" ∧
            AcceptedEdge "v" sampleBrother.user_id [⟨"o", "v", "accepted"⟩]) ∨
          (sampleBrother.profile.location_visibility_mode =
              some "friends_selected" ∧
            AllowEntry "v" sampleBrother.user_id [])) :=
  visibleSet_mem_iff "v" [⟨"o", "v", "accepted"⟩] [] [sampleBrother]
    sampleBrother true (Or.inr (Or.inl rfl)) rfl

/-- C2: when the friendship lookups fail (canonical and fallback both
error or throw, so `loadViewerRelations` returns the empty set), every
friends-mode candidate is invisible; likewise when the allowlist
lookups all fail, every friends_selected-mode candidate is invisible.
The resolver fails closed, never visible-by-default. -/
theorem fail_closed_not_visible :
    (∀ (viewerId : String) (qa1 : Option (List AllowlistRow))
        (qa2 : Option (List AllowlistRow2)) (qa3 : Option (List AllowlistRow3))
        (rawList : List BrotherLocation) (b : BrotherLocation),
        normalizeVisibilityMode b.profile.location_visibility_mode = "friends" →
        b ∉ visibleFilter (friendsFrom viewerId none none)
            (allowlistedFrom viewerId qa1 qa2 qa3) rawList) ∧
    (∀ (viewerId : String) (qf1 : Option (List FriendshipRow))
        (qf2 : Option (List FriendshipRow2)) (rawList : List BrotherLocation)
        (b : BrotherLocation),
        normalizeVisibilityMode b.profile.location_visibility_mode =
            "friends_selected" →
        b ∉ visibleFilter (friendsFrom viewerId qf1 qf2)
            (allowlistedFrom viewerId none none none) rawList) := by
  constructor
  · intro viewerId qa1 qa2 qa3 rawList b hmode hmem
    rw [visibleFilter, List.mem_filter] at hmem
    obtain ⟨-, hv⟩ := hmem
    unfold visibleTo at hv
    rw [hmode] at hv
    simp [friendsFrom] at hv
  · intro viewerId qf1 qf2 rawList b hmode hmem
    rw [visibleFilter, List.mem_filter] at hmem
    obtain ⟨-, hv⟩ := hmem
    unfold visibleTo at hv
    rw [hmode] at hv
    simp [allowlistedFrom] at hv

/-- Witness for `fail_closed_not_visible`: with all relation lookups
failed, the concrete friends-mode and friends_selected-mode candidates
are filtered out. -/
theorem fail_closed_not_visible_witness :
    sampleBrother ∉ visibleFilter (friendsFrom "v" none none)
        (allowlistedFrom "v" (some [⟨"o", "v"⟩]) none none) [sampleBrother] ∧
    sampleBrotherSel ∉ visibleFilter (friendsFrom "v" (some [⟨"p", "v",
        "accepted"⟩]) none) (allowlistedFrom "v" none none none)
        [sampleBrotherSel] :=
  ⟨fail_closed_not_visible.1 "v" (some [⟨"o", "v"⟩]) none none
      [sampleBrother] sampleBrother rfl,
    fail_closed_not_visible.2 "v" (some [⟨"p", "v", "accepted"⟩]) none
      [sampleBrotherSel] sampleBrotherSel rfl⟩

/-- C9: a candidate with a missing or unrecognized visibility mode is
treated exactly as mode "friends": the filter decision equals the one
for the mode-"friends" copy, and end to end the candidate is visible
iff not stealth, tracking not disabled, and an accepted friendship
edge exists. -/
theorem unrecognized_mode_as_friends (viewerId : String)
    (ftable : List FriendshipRow) (atable : List AllowlistRow)
    (rawList : List BrotherLocation) (b : BrotherLocation)
    (hmode : b.profile.location_visibility_mode = none ∨
      ∃ s, b.profile.location_visibility_mode = some s ∧
        s ≠ "public" ∧ s ≠ "friends" ∧ s ≠ "friends_selected") :
    (∀ friends allowlisted : List String,
        visibleTo friends allowlisted b =
          visibleTo friends allowlisted (setMode b (some "friends"))) ∧
    (b ∈ resolveVisible viewerId ftable atable rawList ↔
      b ∈ rawList ∧ b.profile.stealth_mode = false ∧
        b.profile.tracking_enabled ≠ some false ∧
        AcceptedEdge viewerId b.user_id ftable) := by
  have hnorm : normalizeVisibilityMode b.profile.location_visibility_mode =
      "friends" := by
    rcases hmode with hm | ⟨s, hm, h1, h2, h3⟩
    · rw [hm]
      rfl
    · unfold normalizeVisibilityMode
      rw [hm]
      simp [h1, h2, h3]
  constructor
  · intro friends allowlisted
    unfold visibleTo setMode
    rw [hnorm]
    rfl
  · unfold resolveVisible visibleFilter
    rw [List.mem_filter]
    refine and_congr_right fun _ => ?_
    unfold visibleTo
    rw [hnorm]
    cases hst : b.profile.stealth_mode
    · cases htr : b.profile.tracking_enabled with
      | none => simp [mem_friendsFrom_iff]
      | some tv => cases tv <;> simp [mem_friendsFrom_iff]
    · simp

/-- Witness for `unrecognized_mode_as_friends`: the candidate with
mode "everyone" behaves as mode "friends". -/
theorem unrecognized_mode_as_friends_witness :
    visibleTo ["q"] [] sampleBrotherOdd =
        visibleTo ["q"] [] (setMode sampleBrotherOdd (some "friends")) ∧
    (sampleBrotherOdd ∈ resolveVisible "v" [⟨"q", "v", "accepted"⟩] []
        [sampleBrotherOdd] ↔
      sampleBrotherOdd ∈ [sampleBrotherOdd] ∧
        sampleBrotherOdd.profile.stealth_mode = false ∧
        sampleBrotherOdd.profile.tracking_enabled ≠ some false ∧
        AcceptedEdge "v" sampleBrotherOdd.user_id [⟨"q", "v", "accepted"⟩]) :=
  ⟨(unrecognized_mode_as_friends "v" [⟨"q", "v", "accepted"⟩] []
      [sampleBrotherOdd] sampleBrotherOdd
      (Or.inr ⟨"everyone", rfl, by decide, by decide, by decide⟩)).1 ["q"] [],
    (unrecognized_mode_as_friends "v" [⟨"q", "v", "accepted"⟩] []
      [sampleBrotherOdd] sampleBrotherOdd
      (Or.inr ⟨"everyone", rfl, by decide, by decide, by decide⟩)).2⟩

/-! ## C6 / C10: alerting guards and fetch error atomicity -/

/-- C6: with a configured radius of 0 the alerting pass emits nothing
and leaves the `lastNotified` map untouched, and with the viewer's own
position unknown no alerts are evaluated at all. -/
theorem proximity_disabled_guards :
    (∀ (profile : ViewerProfile) (myLat myLng : Option ℝ) (now : ℤ)
        (ln : List (String × ℤ)) (list : List BrotherLocation),
        profile.proximity_radius_km = some 0 →
        checkProximityAlerts profile myLat myLng now ln list = ([], ln)) ∧
    (∀ (profile : ViewerProfile) (myLng : Option ℝ) (now : ℤ)
        (ln : List (String × ℤ)) (list : List BrotherLocation),
        checkProximityAlerts profile none myLng now ln list = ([], ln)) ∧
    (∀ (profile : ViewerProfile) (myLat : Option ℝ) (now : ℤ)
        (ln : List (String × ℤ)) (list : List BrotherLocation),
        checkProximityAlerts profile myLat none now ln list = ([], ln)) := by
  refine ⟨?_, ?_, ?_⟩
  · intro profile myLat myLng now ln list hr
    unfold checkProximityAlerts
    rw [hr]
    simp
  · intro profile myLng now ln list
    unfold checkProximityAlerts
    split_ifs with h1
    · rfl
    · dsimp only
      split_ifs <;> rfl
  · intro profile myLat now ln list
    unfold checkProximityAlerts
    split_ifs with h1
    · rfl
    · dsimp only
      split_ifs <;> cases myLat <;> rfl

/-- Witness for `proximity_disabled_guards`: radius 0 and unknown
position at concrete inputs. -/
theorem proximity_disabled_guards_witness :
    checkProximityAlerts ⟨none, some 0⟩ (some 1) (some 2) 200000 []
        [sampleBrother] = ([], []) ∧
    checkProximityAlerts ⟨none, some 5⟩ none (some 2) 200000 [("o", 3)] [] =
      ([], [("o", 3)]) :=
  ⟨proximity_disabled_guards.1 ⟨none, some 0⟩ (some 1) (some 2) 200000 []
      [sampleBrother] rfl,
    proximity_disabled_guards.2.1 ⟨none, some 5⟩ (some 2) 200000
      [("o", 3)] []⟩

/-- C10: when the locations query fails, `fetchBrothers` leaves the
previously resolved visible set and the `lastNotified` map unchanged;
on success the visible set becomes the freshly filtered list. -/
theorem fetch_error_keeps_state :
    (∀ (friends allowlisted : List String) (profile : ViewerProfile)
        (myLat myLng : Option ℝ) (now : ℤ) (brothers : List BrotherLocation)
        (ln : List (String × ℤ)),
        fetchApply friends allowlisted profile myLat myLng now none brothers
            ln = (brothers, ln)) ∧
    (∀ (friends allowlisted : List String) (profile : ViewerProfile)
        (myLat myLng : Option ℝ) (now : ℤ) (data brothers : List BrotherLocation)
        (ln : List (String × ℤ)),
        (fetchApply friends allowlisted profile myLat myLng now (some data)
            brothers ln).1 = visibleFilter friends allowlisted data) :=
  ⟨fun _ _ _ _ _ _ _ _ => rfl, fun _ _ _ _ _ _ _ _ _ => rfl⟩

/-! ## C5: proximity alerting characterization -/

/-- Every alert emitted by the loop names a candidate of the list. -/
theorem alertLoop_alerts_subset (la lo r : ℝ) (now : ℤ) :
    ∀ (list : List BrotherLocation) (ln : List (String × ℤ)) (x : String),
      x ∈ (alertLoop la lo r now ln list).1 →
        x ∈ list.map (fun c => c.user_id) := by
  intro list
  induction list with
  | nil =>
      intro ln x hx
      simp only [alertLoop] at hx
      exact absurd hx (List.not_mem_nil x)
  | cons c rest ih =>
      intro ln x
      simp only [alertLoop, List.map_cons]
      cases c.lat with
      | none =>
          intro hx
          exact List.mem_cons_of_mem _ (ih ln x hx)
      | some clat =>
          cases c.lng with
          | none =>
              intro hx
              exact List.mem_cons_of_mem _ (ih ln x hx)
          | some clng =>
              dsimp only
              split_ifs with hcst hdist hcool
              · intro hx
                exact List.mem_cons_of_mem _ (ih ln x hx)
              · intro hx
                rcases List.mem_cons.mp hx with he | hx'
                · exact he ▸ List.mem_cons_self _ _
                · exact List.mem_cons_of_mem _ (ih _ x hx')
              · intro hx
                exact List.mem_cons_of_mem _ (ih ln x hx)
              · intro hx
                exact List.mem_cons_of_mem _ (ih ln x hx)

/-- The loop never touches `lastNotified` entries of users that are
not in the list. -/
theorem alertLoop_lookup_eq (la lo r : ℝ) (now : ℤ) :
    ∀ (list : List BrotherLocation) (ln : List (String × ℤ)) (k : String),
      k ∉ list.map (fun c => c.user_id) →
      ((alertLoop la lo r now ln list).2).lookup k = ln.lookup k := by
  intro list
  induction list with
  | nil =>
      intro ln k _
      rfl
  | cons c rest ih =>
      intro ln k hk
      rw [List.map_cons, List.mem_cons] at hk
      push_neg at hk
      obtain ⟨hkc, hkr⟩ := hk
      simp only [alertLoop]
      cases c.lat with
      | none => exact ih ln k hkr
      | some clat =>
          cases c.lng with
          | none => exact ih ln k hkr
          | some clng =>
              dsimp only
              split_ifs with hcst hdist hcool
              · exact ih ln k hkr
              · rw [ih _ k hkr, List.lookup_cons,
                  show (k == c.user_id) = false from beq_eq_false_iff_ne.mpr hkc]
              · exact ih ln k hkr
              · exact ih ln k hkr

/-- Per-candidate characterization of the alert loop: with distinct
user ids, a visible candidate with known coordinates is alerted iff it
is within the radius and past the cooldown relative to the incoming
`lastNotified` map, and an alerted candidate's entry is set to `now`. -/
theorem alertLoop_mem_iff (la lo r : ℝ) (now : ℤ) :
    ∀ (list : List BrotherLocation) (ln : List (String × ℤ))
      (b : BrotherLocation) (blat blng : ℝ),
      (list.map (fun c => c.user_id)).Nodup → b ∈ list →
      b.lat = some blat → b.lng = some blng →
      b.profile.stealth_mode = false →
      (b.user_id ∈ (alertLoop la lo r now ln list).1 ↔
        (haversineDistance la lo blat blng ≤ r ∧
          now - lookupD ln b.user_id ≥ COOLDOWN_MS)) ∧
      (b.user_id ∈ (alertLoop la lo r now ln list).1 →
        ((alertLoop la lo r now ln list).2).lookup b.user_id = some now) := by
  intro list
  induction list with
  | nil =>
      intro ln b blat blng _ hmem
      exact absurd hmem (List.not_mem_nil b)
  | cons c rest ih =>
      intro ln b blat blng hnodup hmem hlat hlng hst
      rw [List.map_cons, List.nodup_cons] at hnodup
      obtain ⟨hcnotin, hnodup'⟩ := hnodup
      rcases List.mem_cons.mp hmem with rfl | hmemr
      · -- the candidate is the head of the list
        simp only [alertLoop]
        rw [hlat, hlng]
        dsimp only
        rw [hst]
        simp only [Bool.false_eq_true, if_false]
        split_ifs with hdist hcool
        · -- alert emitted for the head
          constructor
          · exact ⟨fun _ => ⟨hdist, hcool⟩, fun _ => List.mem_cons_self _ _⟩
          · intro _
            dsimp only
            rw [alertLoop_lookup_eq la lo r now rest _ _ hcnotin,
              List.lookup_cons, show (b.user_id == b.user_id) = true from
                beq_self_eq_true _]
        · -- within radius but inside the cooldown window
          constructor
          · constructor
            · intro hx
              exact absurd (alertLoop_alerts_subset la lo r now rest ln _ hx)
                hcnotin
            · rintro ⟨-, hc⟩
              exact absurd hc hcool
          · intro hx
            exact absurd (alertLoop_alerts_subset la lo r now rest ln _ hx)
              hcnotin
        · -- outside the radius
          constructor
          · constructor
            · intro hx
              exact absurd (alertLoop_alerts_subset la lo r now rest ln _ hx)
                hcnotin
            · rintro ⟨hd, -⟩
              exact absurd hd hdist
          · intro hx
            exact absurd (alertLoop_alerts_subset la lo r now rest ln _ hx)
              hcnotin
      · -- the candidate is further down the list
        have hne : b.user_id ≠ c.user_id := by
          intro he
          exact hcnotin (he ▸ List.mem_map.mpr ⟨b, hmemr, rfl⟩)
        simp only [alertLoop]
        cases c.lat with
        | none => exact ih ln b blat blng hnodup' hmemr hlat hlng hst
        | some clat =>
            cases c.lng with
            | none => exact ih ln b blat blng hnodup' hmemr hlat hlng hst
            | some clng =>
                dsimp only
                split_ifs with hcst hdist hcool
                · exact ih ln b blat blng hnodup' hmemr hlat hlng hst
                · -- the head is alerted first; states stay coherent
                  have hlk : lookupD ((c.user_id, now) :: ln) b.user_id =
                      lookupD ln b.user_id := by
                    unfold lookupD
                    rw [List.lookup_cons,
                      show (b.user_id == c.user_id) = false from
                        beq_eq_false_iff_ne.mpr hne]
                  obtain ⟨ihiff, ihrec⟩ :=
                    ih ((c.user_id, now) :: ln) b blat blng hnodup' hmemr
                      hlat hlng hst
                  constructor
                  · dsimp only
                    rw [List.mem_cons]
                    constructor
                    · rintro (he | hx)
                      · exact absurd he hne
                      · have := ihiff.mp hx
                        rwa [hlk] at this
                    · intro hrhs
                      right
                      exact ihiff.mpr (by rwa [hlk])
                  · intro hx
                    dsimp only at hx
                    rcases List.mem_cons.mp hx with he | hx'
                    · exact absurd he hne
                    · exact ihrec hx'
                · exact ih ln b blat blng hnodup' hmemr hlat hlng hst
                · exact ih ln b blat blng hnodup' hmemr hlat hlng hst

/-- C5: with alerting enabled, a non-zero radius, a known own
position, distinct candidate user ids and a clock past one cooldown,
a visible candidate with known coordinates is alerted iff its
haversine distance is within the radius and it was never notified or
the cooldown has elapsed; an alerted candidate's `lastNotified` entry
is set to `now`. -/
theorem proximity_alert_iff (profile : ViewerProfile) (la lo : ℝ) (now : ℤ)
    (ln : List (String × ℤ)) (list : List BrotherLocation)
    (b : BrotherLocation) (blat blng : ℝ)
    (hen : profile.proximity_alerts_enabled ≠ some false)
    (hr : profile.proximity_radius_km.getD 5 ≠ 0)
    (hnodup : (list.map (fun c => c.user_id)).Nodup)
    (hmem : b ∈ list) (hlat : b.lat = some blat) (hlng : b.lng = some blng)
    (hst : b.profile.stealth_mode = false)
    (hnow : COOLDOWN_MS ≤ now) :
    (b.user_id ∈ (checkProximityAlerts profile (some la) (some lo) now ln
        list).1 ↔
      (haversineDistance la lo blat blng ≤ profile.proximity_radius_km.getD 5 ∧
        (ln.lookup b.user_id = none ∨
          ∃ v, ln.lookup b.user_id = some v ∧ COOLDOWN_MS ≤ now - v))) ∧
    (b.user_id ∈ (checkProximityAlerts profile (some la) (some lo) now ln
        list).1 →
      ((checkProximityAlerts profile (some la) (some lo) now ln
          list).2).lookup b.user_id = some now) := by
  have hred : checkProximityAlerts profile (some la) (some lo) now ln list =
      alertLoop la lo (profile.proximity_radius_km.getD 5) now ln list := by
    unfold checkProximityAlerts
    rw [if_neg hen]
    dsimp only
    rw [if_neg hr]
  have hcool : (now - lookupD ln b.user_id ≥ COOLDOWN_MS) ↔
      (ln.lookup b.user_id = none ∨
        ∃ v, ln.lookup b.user_id = some v ∧ COOLDOWN_MS ≤ now - v) := by
    unfold lookupD
    cases hlk : ln.lookup b.user_id with
    | none =>
        simp only [Option.getD_none, sub_zero]
        constructor
        · intro _
          left
          trivial
        · intro _
          exact hnow
    | some v =>
        simp only [Option.getD_some]
        constructor
        · intro h
          exact Or.inr ⟨v, rfl, h⟩
        · rintro (h | ⟨v', hv', h⟩)
          · exact absurd h (Option.noConfusion)
          · rw [Option.some.injEq] at hv'
            subst hv'
            exact h
  obtain ⟨hiff, hrec⟩ := alertLoop_mem_iff la lo
    (profile.proximity_radius_km.getD 5) now list ln b blat blng hnodup hmem
    hlat hlng hst
  rw [hred]
  exact ⟨hiff.trans (and_congr_right fun _ => hcool), hrec⟩

/-- Witness for `proximity_alert_iff`: radius 5 km, viewer at the
origin, a never-notified public candidate at the origin, clock at
200000 ms. -/
theorem proximity_alert_iff_witness :
    (sampleBrotherNear.user_id ∈ (checkProximityAlerts ⟨some true, some 5⟩
        (some 0) (some 0) 200000 [] [sampleBrotherNear]).1 ↔
      (haversineDistance 0 0 0 0 ≤ (some (5 : ℝ)).getD 5 ∧
        (([] : List (String × ℤ)).lookup sampleBrotherNear.user_id = none ∨
          ∃ v, ([] : List (String × ℤ)).lookup sampleBrotherNear.user_id =
              some v ∧ COOLDOWN_MS ≤ 200000 - v))) ∧
    (sampleBrotherNear.user_id ∈ (checkProximityAlerts ⟨some true, some 5⟩
        (some 0) (some 0) 200000 [] [sampleBrotherNear]).1 →
      ((checkProximityAlerts ⟨some true, some 5⟩ (some 0) (some 0) 200000 []
          [sampleBrotherNear]).2).lookup sampleBrotherNear.user_id =
        some 200000) :=
  proximity_alert_iff ⟨some true, some 5⟩ 0 0 200000 [] [sampleBrotherNear]
    sampleBrotherNear 0 0 (by decide) (by norm_num) (by simp)
    (List.mem_singleton.mpr rfl) rfl rfl rfl (by decide)

end Fraterna








